import Mathlib

/-!
Shallow embedding of the document-upload backend (Express + MongoDB).

The primary handler set is `server.js`; the `unnamed` source variants add a
category field in the list projection (`part_001`) and delete handlers
(`part_003`).  The store is modelled as a list of records plus a fresh-id
counter; `findOne` is first-match lookup, `updateOne` with a single `$set`
returns matched/modified counts with MongoDB semantics (a `$set` to the
value already stored matches but does not modify), `deleteOne` removes the
first match.  A malformed ObjectId string makes the driver constructor
throw inside the try block of each handler, which the catch converts to
a 500 response; this is modelled by `parseObjectId` returning `none` and
the handler returning its `serverError` outcome.
-/

namespace VC

/-- One stored document of the `files` collection.  `category` is `none`
when the field is absent from the document (the `server.js` insert does not
write it); `feedback` is `none` for the JSON null the insert writes. -/
structure FileRecord where
  oid : Nat
  filename : String
  contentType : String
  data : List Nat
  uploadedAt : Nat
  status : String
  passkey : String
  category : Option String
  feedback : Option String
deriving DecidableEq, Repr

/-- The `files` collection plus the fresh ObjectId supply. -/
structure Store where
  records : List FileRecord
  nextId : Nat
deriving DecidableEq, Repr

def emptyStore : Store := { records := [], nextId := 0 }

/-- All stored ids are below the fresh-id counter, so a newly generated id
never collides with a stored one. -/
def FreshIds (s : Store) : Prop :=
  ∀ r ∈ s.records, r.oid < s.nextId

/-- JavaScript `x || d` on a string-or-null value: null and the empty
string are falsy, every other string is itself. -/
def jsOr : Option String → String → String
  | none, d => d
  | some s, d => if s = "" then d else s

def isHexChar (c : Char) : Bool :=
  c.isDigit || (('a' ≤ c) && (c ≤ 'f')) || (('A' ≤ c) && (c ≤ 'F'))

def hexCharVal (c : Char) : Nat :=
  if c.isDigit then c.toNat - 48
  else if 'a' ≤ c then c.toNat - 87
  else c.toNat - 55

/-- The ObjectId constructor accepts exactly the 24-character hex strings and is
case-insensitive on the hex digits; on anything else it throws.  The
decoded value is the 96-bit number, which is what ObjectId equality
compares. -/
def parseObjectId (s : String) : Option Nat :=
  let cs := s.data
  if cs.length = 24 && cs.all isHexChar then
    some (cs.foldl (fun n c => 16 * n + hexCharVal c) 0)
  else
    none

def hexDigitChar (n : Nat) : Char :=
  if n < 10 then Char.ofNat (48 + n) else Char.ofNat (97 + n - 10)

def hexDigitsAux : Nat → Nat → List Char
  | 0, _ => []
  | k + 1, n => hexDigitsAux k (n / 16) ++ [hexDigitChar (n % 16)]

/-- The toString rendering of an ObjectId: 24 lowercase hex digits. -/
def oidToString (n : Nat) : String := String.mk (hexDigitsAux 24 n)

/-- The updateOne operation with a single set stage, on a list: rewrite the first record
matching `p` with `f`, returning the new list, the matched count and the
modified count.  MongoDB reports `modifiedCount = 0` when the matched
document is unchanged by the `$set`. -/
def updateFirst (p : FileRecord → Bool) (f : FileRecord → FileRecord) :
    List FileRecord → List FileRecord × Nat × Nat
  | [] => ([], 0, 0)
  | r :: rs =>
    if p r then
      ((f r) :: rs, 1, if f r = r then 0 else 1)
    else
      let (rs', m, u) := updateFirst p f rs
      (r :: rs', m, u)

/-- The deleteOne operation on a list: drop the first record matching `p`,
returning the new list and the deleted count. -/
def deleteFirst (p : FileRecord → Bool) :
    List FileRecord → List FileRecord × Nat
  | [] => ([], 0)
  | r :: rs =>
    if p r then (rs, 1)
    else
      let (rs', d) := deleteFirst p rs
      (r :: rs', d)

/-- The in-memory file delivered by multer to the handler. -/
structure UploadFile where
  originalname : String
  mimetype : String
  buffer : List Nat
deriving DecidableEq, Repr

/-- POST /submit-form handler outcomes of `server.js`. -/
inductive SubmitResp where
  | passkeyRequired
  | passkeyInUse
  | noFile
  | ok (fileId : Nat)
deriving DecidableEq, Repr

def SubmitResp.code : SubmitResp → Nat
  | .passkeyRequired => 400
  | .passkeyInUse => 400
  | .noFile => 400
  | .ok _ => 200

/-- POST /submit-form handler of `server.js` (runs after multer accepted
the request).  A missing or empty `passkey` body field is falsy in JS, so
both are modelled by the empty string. -/
def submitForm (s : Store) (now : Nat) (passkey : String)
    (file : Option UploadFile) : SubmitResp × Store :=
  if passkey = "" then (.passkeyRequired, s)
  else if (s.records.find? (fun r => r.passkey == passkey)).isSome then
    (.passkeyInUse, s)
  else
    match file with
    | none => (.noFile, s)
    | some f =>
      let doc : FileRecord :=
        { oid := s.nextId
          filename := f.originalname
          contentType := f.mimetype
          data := f.buffer
          uploadedAt := now
          status := "under_processing"
          passkey := passkey
          category := none
          feedback := none }
      (.ok s.nextId, { records := s.records ++ [doc], nextId := s.nextId + 1 })

/-- What the client sees from POST /submit-form: either the multer
fileFilter error (the handler never runs) or the handler response. -/
inductive SubmitOutcome where
  | filterRejected (msg : String)
  | handled (resp : SubmitResp)
deriving DecidableEq, Repr

/-- The multer `upload.single("resume")` stage composed with the handler:
a file whose mimetype is not application/pdf is rejected by the fileFilter
before the handler runs, so the store is untouched. -/
def submitFormPipeline (s : Store) (now : Nat) (passkey : String)
    (file : Option UploadFile) : SubmitOutcome × Store :=
  match file with
  | some f =>
    if f.mimetype = "application/pdf" then
      let (r, s') := submitForm s now passkey (some f)
      (.handled r, s')
    else
      (.filterRejected "Only PDF files allowed", s)
  | none =>
    let (r, s') := submitForm s now passkey none
    (.handled r, s')

/-- GET /file/:id handler outcomes. -/
inductive FileResp where
  | notFound
  | serverError
  | ok (contentType : String) (disposition : String) (data : List Nat)
deriving DecidableEq, Repr

def FileResp.code : FileResp → Nat
  | .notFound => 404
  | .serverError => 500
  | .ok _ _ _ => 200

/-- GET /file/:id of `server.js`: `new ObjectId` on a malformed path id
throws and the catch answers 500. -/
def getFileById (s : Store) (idStr : String) : FileResp :=
  match parseObjectId idStr with
  | none => .serverError
  | some oid =>
    match s.records.find? (fun r => r.oid == oid) with
    | none => .notFound
    | some f => .ok f.contentType "inline" f.data

/-- GET /file/passkey/:passkey of `server.js`. -/
def getFileByPasskey (s : Store) (passkey : String) : FileResp :=
  match s.records.find? (fun r => r.passkey == passkey) with
  | none => .notFound
  | some f => .ok f.contentType "inline" f.data

/-- One element of the `/get-files` response of `server.js`: the handler
writes exactly the id string, filename, status, passkey and feedback. -/
structure FileSummary where
  idStr : String
  filename : String
  status : String
  passkey : String
  feedback : Option String
deriving DecidableEq, Repr

/-- GET /get-files of `server.js`. -/
def getFiles (s : Store) : List FileSummary :=
  s.records.map (fun f =>
    { idStr := oidToString f.oid
      filename := f.filename
      status := f.status
      passkey := f.passkey
      feedback := f.feedback })

/-- One element of the `/get-files` response of the `part_001` variant,
which additionally reports the category (defaulted) and the upload
timestamp under the JSON key `uploadDate`. -/
structure FileSummaryV1 where
  idStr : String
  filename : String
  status : String
  passkey : String
  feedback : Option String
  category : String
  uploadDate : Nat
deriving DecidableEq, Repr

/-- GET /get-files of the `part_001` variant. -/
def getFilesV1 (s : Store) : List FileSummaryV1 :=
  s.records.map (fun f =>
    { idStr := oidToString f.oid
      filename := f.filename
      status := f.status
      passkey := f.passkey
      feedback := f.feedback
      category := jsOr f.category "Uncategorized"
      uploadDate := f.uploadedAt })

/-- POST /update-status and /submit-feedback handler outcomes. -/
inductive UpdateResp where
  | missingParams
  | notFound
  | ok
  | serverError
deriving DecidableEq, Repr

def UpdateResp.code : UpdateResp → Nat
  | .missingParams => 400
  | .notFound => 404
  | .ok => 200
  | .serverError => 500

/-- POST /update-status of `server.js`: missing parameters answer 400, a
malformed id throws into the catch (500), and `modifiedCount === 0`
answers 404. -/
def updateStatus (s : Store) (idStr status : String) : UpdateResp × Store :=
  if idStr = "" ∨ status = "" then (.missingParams, s)
  else
    match parseObjectId idStr with
    | none => (.serverError, s)
    | some oid =>
      let (recs, _m, u) :=
        updateFirst (fun r => r.oid == oid)
          (fun r => { r with status := status }) s.records
      if u = 0 then (.notFound, { s with records := recs })
      else (.ok, { s with records := recs })

/-- POST /submit-feedback of `server.js`: same shape as /update-status,
with `$set` on the feedback field. -/
def submitFeedback (s : Store) (idStr feedback : String) :
    UpdateResp × Store :=
  if idStr = "" ∨ feedback = "" then (.missingParams, s)
  else
    match parseObjectId idStr with
    | none => (.serverError, s)
    | some oid =>
      let (recs, _m, u) :=
        updateFirst (fun r => r.oid == oid)
          (fun r => { r with feedback := some feedback }) s.records
      if u = 0 then (.notFound, { s with records := recs })
      else (.ok, { s with records := recs })

/-- POST /get-feedback handler outcomes. -/
inductive FeedbackResp where
  | missingParams
  | notFound
  | wrongPasskey
  | ok (feedback : String)
  | serverError
deriving DecidableEq, Repr

def FeedbackResp.code : FeedbackResp → Nat
  | .missingParams => 400
  | .notFound => 404
  | .wrongPasskey => 403
  | .ok _ => 200
  | .serverError => 500

/-- POST /get-feedback of `server.js`: a read-only handler. -/
def getFeedback (s : Store) (fileId passkey : String) : FeedbackResp :=
  if fileId = "" ∨ passkey = "" then .missingParams
  else
    match parseObjectId fileId with
    | none => .serverError
    | some oid =>
      match s.records.find? (fun r => r.oid == oid) with
      | none => .notFound
      | some f =>
        if f.passkey ≠ passkey then .wrongPasskey
        else .ok (jsOr f.feedback "No feedback provided yet.")

/-- Delete handler outcomes (`part_003` variants). -/
inductive DeleteResp where
  | passkeyRequired
  | notFound
  | invalidPasskey
  | deleteFailed
  | ok
  | serverError
deriving DecidableEq, Repr

def DeleteResp.code : DeleteResp → Nat
  | .passkeyRequired => 400
  | .notFound => 404
  | .invalidPasskey => 403
  | .deleteFailed => 500
  | .ok => 200
  | .serverError => 500

/-- DELETE /delete-file/:id of `part_003` (ungated variant, lines
389-402). -/
def deleteFileById (s : Store) (idStr : String) : DeleteResp × Store :=
  match parseObjectId idStr with
  | none => (.serverError, s)
  | some oid =>
    let (recs, d) := deleteFirst (fun r => r.oid == oid) s.records
    if d = 0 then (.notFound, { s with records := recs })
    else (.ok, { s with records := recs })

/-- DELETE /delete-file/:id of `part_003` (passkey-gated variant, lines
405-435): fetch first, compare the passkey, delete only on exact match. -/
def deleteFileGated (s : Store) (idStr passkey : String) :
    DeleteResp × Store :=
  if passkey = "" then (.passkeyRequired, s)
  else
    match parseObjectId idStr with
    | none => (.serverError, s)
    | some oid =>
      match s.records.find? (fun r => r.oid == oid) with
      | none => (.notFound, s)
      | some f =>
        if f.passkey ≠ passkey then (.invalidPasskey, s)
        else
          let (recs, d) := deleteFirst (fun r => r.oid == oid) s.records
          if d = 0 then (.deleteFailed, { s with records := recs })
          else (.ok, { s with records := recs })

/-- DELETE /delete-all-files of `part_003`. -/
def deleteAllFiles (s : Store) : DeleteResp × Store :=
  if s.records.length = 0 then (.notFound, { s with records := [] })
  else (.ok, { s with records := [] })

/-- The findOne lookup keyed on the id field. -/
def findById (s : Store) (oid : Nat) : Option FileRecord :=
  s.records.find? (fun r => r.oid == oid)

/-- Rewrite the payload bytes of a record, leaving every other field alone.
Used to state that a response does not depend on the payload. -/
def setData (g : List Nat → List Nat) (r : FileRecord) : FileRecord :=
  { r with data := g r.data }

/-- Rewrite the category of a record, leaving every other field alone. -/
def setCategory (c : Option String) (r : FileRecord) : FileRecord :=
  { r with category := c }

/-- The content-type invariant: every stored record is a PDF. -/
def PdfInv (s : Store) : Prop :=
  ∀ r ∈ s.records, r.contentType = "application/pdf"

/-- A sample stored record, as `/submit-form` of `server.js` creates it. -/
def sampleRec : FileRecord :=
  { oid := 0
    filename := "cv.pdf"
    contentType := "application/pdf"
    data := [37, 80, 68, 70]
    uploadedAt := 0
    status := "under_processing"
    passkey := "abc123"
    category := none
    feedback := none }

/-- A sample one-record store. -/
def sampleStore : Store := { records := [sampleRec], nextId := 1 }

/-- The sample store with the category field absent. -/
def storeNoCat : Store :=
  { records := [setCategory none sampleRec], nextId := 1 }

/-- The sample store with the category field set. -/
def storeWithCat : Store :=
  { records := [setCategory (some "CS") sampleRec], nextId := 1 }

/-- The sample upload as multer hands it to the handler. -/
def samplePdf : UploadFile :=
  { originalname := "cv.pdf"
    mimetype := "application/pdf"
    buffer := [37, 80, 68, 70] }

/-- The all-zero 24-digit hex string, the ObjectId rendering of id 0. -/
def zeroId : String := "000000000000000000000000"

/-- A non-PDF upload candidate. -/
def samplePng : UploadFile :=
  { originalname := "photo.png"
    mimetype := "image/png"
    buffer := [137, 80, 78, 71] }

/-- The sample record with an empty feedback string stored. -/
def recEmptyFb : FileRecord := { sampleRec with feedback := some "" }

/-- A store holding one record whose feedback is the empty string. -/
def storeEmptyFb : Store := { records := [recEmptyFb], nextId := 1 }

/-- Rewrite the upload timestamp of a record, leaving every other field
alone. -/
def setUploadedAt (t : Nat) (r : FileRecord) : FileRecord :=
  { r with uploadedAt := t }

/-- The sample store with the upload timestamp moved to 42. -/
def storeT42 : Store :=
  { records := [setUploadedAt 42 sampleRec], nextId := 1 }

theorem find?_append_of_none {p : FileRecord → Bool} {l1 l2 : List FileRecord}
    (h : l1.find? p = none) : (l1 ++ l2).find? p = l2.find? p := by
  simp [List.find?_append, h]

theorem updateFirst_modified_eq_zero (p : FileRecord → Bool)
    (f : FileRecord → FileRecord) (l : List FileRecord) :
    (updateFirst p f l).2.2 = 0 ↔ ∀ r, l.find? p = some r → f r = r := by
  induction l with
  | nil => simp [updateFirst]
  | cons a l ih =>
    by_cases h : p a
    · rw [List.find?_cons_of_pos _ h]
      simp only [updateFirst, h, if_true]
      by_cases hfa : f a = a <;> simp [hfa]
    · rcases hu : updateFirst p f l with ⟨rs, m, u⟩
      rw [List.find?_cons_of_neg _ h]
      simp only [updateFirst, h, hu, if_false]
      rw [hu] at ih
      simpa using ih

theorem mem_updateFirst {p : FileRecord → Bool} {f : FileRecord → FileRecord}
    {l : List FileRecord} {x : FileRecord} (hx : x ∈ (updateFirst p f l).1) :
    x ∈ l ∨ ∃ r ∈ l, x = f r := by
  induction l with
  | nil => simp [updateFirst] at hx
  | cons a l ih =>
    by_cases h : p a
    · simp only [updateFirst, h, if_true] at hx
      rcases List.mem_cons.mp hx with rfl | hxl
      · exact Or.inr ⟨a, List.mem_cons_self a l, rfl⟩
      · exact Or.inl (List.mem_cons_of_mem _ hxl)
    · rcases hu : updateFirst p f l with ⟨rs, m, u⟩
      simp only [updateFirst, h, hu, if_false] at hx
      rcases List.mem_cons.mp hx with rfl | hxl
      · exact Or.inl (List.mem_cons_self _ _)
      · rcases ih (by rw [hu]; exact hxl) with h1 | ⟨r, hr, h2⟩
        · exact Or.inl (List.mem_cons_of_mem _ h1)
        · exact Or.inr ⟨r, List.mem_cons_of_mem _ hr, h2⟩

theorem mem_deleteFirst {p : FileRecord → Bool} {l : List FileRecord}
    {x : FileRecord} (hx : x ∈ (deleteFirst p l).1) : x ∈ l := by
  induction l with
  | nil => simp [deleteFirst] at hx
  | cons a l ih =>
    by_cases h : p a
    · simp only [deleteFirst, h, if_true] at hx
      exact List.mem_cons_of_mem _ hx
    · rcases hd : deleteFirst p l with ⟨rs, d⟩
      simp only [deleteFirst, h, hd, if_false] at hx
      rcases List.mem_cons.mp hx with rfl | hxl
      · exact List.mem_cons_self _ _
      · exact List.mem_cons_of_mem _ (ih (by rw [hd]; exact hxl))

theorem setStatus_eq_self (r : FileRecord) (st : String) :
    ({ r with status := st } = r) ↔ r.status = st := by
  cases r
  simp [FileRecord.mk.injEq, eq_comm]

theorem setFeedback_eq_self (r : FileRecord) (fb : String) :
    ({ r with feedback := some fb } = r) ↔ r.feedback = some fb := by
  cases r
  simp [FileRecord.mk.injEq, eq_comm]

/-- Claim C1: a valid PDF upload with a fresh, non-empty passkey succeeds
on POST /submit-form, answering 200 with the generated file id, and a
subsequent GET /file/:id with the hex rendering of that id returns exactly
the uploaded bytes with the uploaded content type. -/
theorem claim_C1 (s : Store) (now : Nat) (pk : String) (f : UploadFile)
    (idStr : String)
    (hwf : FreshIds s) (hpk : pk ≠ "")
    (hfresh : ∀ r ∈ s.records, r.passkey ≠ pk)
    (hpdf : f.mimetype = "application/pdf")
    (hid : parseObjectId idStr = some s.nextId) :
    ∃ s', submitFormPipeline s now pk (some f) =
        (.handled (.ok s.nextId), s') ∧
      SubmitResp.code (.ok s.nextId) = 200 ∧
      getFileById s' idStr = .ok f.mimetype "inline" f.buffer := by
  have hfind : s.records.find? (fun r => r.passkey == pk) = none := by
    rw [List.find?_eq_none]
    intro r hr
    simpa using hfresh r hr
  refine ⟨{ records := s.records ++
              [⟨s.nextId, f.originalname, f.mimetype, f.buffer, now,
                "under_processing", pk, none, none⟩],
            nextId := s.nextId + 1 },
          ?_, rfl, ?_⟩
  · simp [submitFormPipeline, hpdf, submitForm, hpk, hfind]
  · have h1 : s.records.find? (fun r => r.oid == s.nextId) = none := by
      rw [List.find?_eq_none]
      intro r hr
      simp only [beq_iff_eq]
      exact fun hc => absurd hc (Nat.ne_of_lt (hwf r hr))
    simp only [getFileById, hid]
    rw [find?_append_of_none h1]
    simp [List.find?_cons_of_pos]

/-- Claim C2: when some stored record already carries passkey pk, a
sequential POST /submit-form with that passkey and any attached file that
passed the PDF filter (or none) fails with the 400 conflict response and
leaves the store unchanged. -/
theorem claim_C2 (s : Store) (now : Nat) (pk : String)
    (file : Option UploadFile) (r : FileRecord)
    (hr : r ∈ s.records) (hpk : r.passkey = pk) (hne : pk ≠ "")
    (hfile : ∀ g, file = some g → g.mimetype = "application/pdf") :
    submitFormPipeline s now pk file = (.handled .passkeyInUse, s) ∧
    SubmitResp.code .passkeyInUse = 400 := by
  have hfind : (s.records.find? (fun r => r.passkey == pk)).isSome := by
    rw [List.find?_isSome]
    exact ⟨r, hr, by simp [hpk]⟩
  refine ⟨?_, rfl⟩
  cases file with
  | none => simp [submitFormPipeline, submitForm, hne, hfind]
  | some g =>
    have hg := hfile g rfl
    simp [submitFormPipeline, hg, submitForm, hne, hfind]

/-- Claim C3 fails on the code: the sample store holds a record with id 0
and status under_processing, yet POST /update-status with that id and the
same status answers 404, because the handler tests the modified count of
the update, which is 0 when the set stage rewrites the field to the value
already stored.  The claim says a request whose id names an existing
record succeeds with 200. -/
theorem claim_C3_counterexample :
    (findById sampleStore 0).isSome = true ∧
    parseObjectId zeroId = some 0 ∧
    updateStatus sampleStore zeroId "under_processing" =
      (.notFound, sampleStore) ∧
    UpdateResp.code .notFound = 404 ∧ UpdateResp.code .notFound ≠ 200 := by
  decide

theorem updateFirst_zero_iff (p : FileRecord → Bool)
    (f : FileRecord → FileRecord) (l : List FileRecord)
    (Q : FileRecord → Prop) (hQ : ∀ r, f r = r ↔ Q r) :
    (updateFirst p f l).2.2 = 0 ↔
      l.find? p = none ∨ ∃ r, l.find? p = some r ∧ Q r := by
  rw [updateFirst_modified_eq_zero]
  constructor
  · intro h
    cases hf : l.find? p with
    | none => exact Or.inl rfl
    | some r => exact Or.inr ⟨r, rfl, (hQ r).mp (h r hf)⟩
  · rintro (hnone | ⟨r, hr, hq⟩) r' hr'
    · rw [hnone] at hr'; cases hr'
    · rw [hr] at hr'
      injection hr' with h'
      subst h'
      exact (hQ r).mpr hq

theorem updateFirst_ne_zero_iff (p : FileRecord → Bool)
    (f : FileRecord → FileRecord) (l : List FileRecord)
    (Q : FileRecord → Prop) (hQ : ∀ r, f r = r ↔ Q r) :
    ¬ (updateFirst p f l).2.2 = 0 ↔
      ∃ r, l.find? p = some r ∧ ¬ Q r := by
  rw [updateFirst_zero_iff p f l Q hQ]
  constructor
  · intro h
    cases hf : l.find? p with
    | none => exact absurd (Or.inl hf) h
    | some r => exact ⟨r, rfl, fun hq => h (Or.inr ⟨r, hf, hq⟩)⟩
  · rintro ⟨r, hr, hq⟩ (hnone | ⟨r', hr', hq'⟩)
    · rw [hr] at hnone; cases hnone
    · rw [hr] at hr'
      injection hr' with h'
      subst h'
      exact hq hq'

/-- Claim C3 amended: for a well-formed id and non-empty parameters,
POST /update-status answers 404 exactly when the update modified nothing,
that is when no record with that id exists or the matched record already
carries the requested status, and answers 200 otherwise; the status value
itself is never inspected.  POST /submit-feedback satisfies the identical
contract on the feedback field. -/
theorem claim_C3 (s : Store) (idStr status feedback : String) (oid : Nat)
    (hids : idStr ≠ "") (hst : status ≠ "") (hfb : feedback ≠ "")
    (hid : parseObjectId idStr = some oid) :
    ((updateStatus s idStr status).1 = .notFound ↔
      findById s oid = none ∨
        ∃ r, findById s oid = some r ∧ r.status = status) ∧
    ((updateStatus s idStr status).1 = .ok ↔
      ∃ r, findById s oid = some r ∧ ¬ r.status = status) ∧
    ((submitFeedback s idStr feedback).1 = .notFound ↔
      findById s oid = none ∨
        ∃ r, findById s oid = some r ∧ r.feedback = some feedback) ∧
    ((submitFeedback s idStr feedback).1 = .ok ↔
      ∃ r, findById s oid = some r ∧ ¬ r.feedback = some feedback) := by
  rcases hu1 : updateFirst (fun r => r.oid == oid)
      (fun r => { r with status := status }) s.records with ⟨recs1, m1, u1⟩
  rcases hu2 : updateFirst (fun r => r.oid == oid)
      (fun r => { r with feedback := some feedback }) s.records
    with ⟨recs2, m2, u2⟩
  have e1 : (updateStatus s idStr status).1 =
      if u1 = 0 then UpdateResp.notFound else UpdateResp.ok := by
    by_cases h : u1 = 0 <;> simp [updateStatus, hids, hst, hid, hu1, h]
  have e2 : (submitFeedback s idStr feedback).1 =
      if u2 = 0 then UpdateResp.notFound else UpdateResp.ok := by
    by_cases h : u2 = 0 <;> simp [submitFeedback, hids, hfb, hid, hu2, h]
  have key : ∀ u : Nat,
      ((if u = 0 then UpdateResp.notFound else UpdateResp.ok) =
          UpdateResp.notFound ↔ u = 0) ∧
      ((if u = 0 then UpdateResp.notFound else UpdateResp.ok) =
          UpdateResp.ok ↔ ¬ u = 0) := by
    intro u
    by_cases h : u = 0 <;> simp [h]
  have hz1 : u1 = 0 ↔
      findById s oid = none ∨
        ∃ r, findById s oid = some r ∧ r.status = status := by
    have h := updateFirst_zero_iff (fun r => r.oid == oid)
      (fun r => { r with status := status }) s.records
      (fun r => r.status = status) (fun r => setStatus_eq_self r status)
    rw [hu1] at h
    simpa [findById] using h
  have hn1 : ¬ u1 = 0 ↔
      ∃ r, findById s oid = some r ∧ ¬ r.status = status := by
    have h := updateFirst_ne_zero_iff (fun r => r.oid == oid)
      (fun r => { r with status := status }) s.records
      (fun r => r.status = status) (fun r => setStatus_eq_self r status)
    rw [hu1] at h
    simpa [findById] using h
  have hz2 : u2 = 0 ↔
      findById s oid = none ∨
        ∃ r, findById s oid = some r ∧ r.feedback = some feedback := by
    have h := updateFirst_zero_iff (fun r => r.oid == oid)
      (fun r => { r with feedback := some feedback }) s.records
      (fun r => r.feedback = some feedback)
      (fun r => setFeedback_eq_self r feedback)
    rw [hu2] at h
    simpa [findById] using h
  have hn2 : ¬ u2 = 0 ↔
      ∃ r, findById s oid = some r ∧ ¬ r.feedback = some feedback := by
    have h := updateFirst_ne_zero_iff (fun r => r.oid == oid)
      (fun r => { r with feedback := some feedback }) s.records
      (fun r => r.feedback = some feedback)
      (fun r => setFeedback_eq_self r feedback)
    rw [hu2] at h
    simpa [findById] using h
  refine ⟨?_, ?_, ?_, ?_⟩
  · rw [e1, (key u1).1]; exact hz1
  · rw [e1, (key u1).2]; exact hn1
  · rw [e2, (key u2).1]; exact hz2
  · rw [e2, (key u2).2]; exact hn2

/-- Claim C4 fails on the code for an unparseable file id: the request
carries both fields and no record with id x exists (the store is empty),
so the claim demands the 404 not-found answer, but the ObjectId
constructor throws and the catch answers 500. -/
theorem claim_C4_counterexample :
    parseObjectId "x" = none ∧
    getFeedback emptyStore "x" "abc123" = .serverError ∧
    FeedbackResp.code .serverError = 500 ∧
    FeedbackResp.code .serverError ≠ 404 := by
  decide

/-- Claim C4 amended: POST /get-feedback answers 400 when fileId or
passkey is missing; 500 when the present fileId does not parse as an
ObjectId; otherwise 404 when no record with that id exists, 403 when the
stored passkey differs from the supplied one, and otherwise 200 with the
stored feedback, replaced by the sentinel string when the stored feedback
is null. -/
theorem claim_C4 (s : Store) (fid pk : String) (oid : Nat)
    (r : FileRecord) :
    (fid = "" ∨ pk = "" → getFeedback s fid pk = .missingParams) ∧
    (¬ fid = "" → ¬ pk = "" → parseObjectId fid = none →
      getFeedback s fid pk = .serverError) ∧
    (¬ fid = "" → ¬ pk = "" → parseObjectId fid = some oid →
      findById s oid = none → getFeedback s fid pk = .notFound) ∧
    (¬ fid = "" → ¬ pk = "" → parseObjectId fid = some oid →
      findById s oid = some r → ¬ r.passkey = pk →
      getFeedback s fid pk = .wrongPasskey) ∧
    (¬ fid = "" → ¬ pk = "" → parseObjectId fid = some oid →
      findById s oid = some r → r.passkey = pk →
      getFeedback s fid pk =
        .ok (jsOr r.feedback "No feedback provided yet.")) ∧
    FeedbackResp.code .missingParams = 400 ∧
    FeedbackResp.code .notFound = 404 ∧
    FeedbackResp.code .wrongPasskey = 403 := by
  refine ⟨?_, ?_, ?_, ?_, ?_, rfl, rfl, rfl⟩
  · intro h
    unfold getFeedback
    rw [if_pos h]
  · intro h1 h2 h3
    simp [getFeedback, h1, h2, h3]
  · intro h1 h2 h3 h4
    simp only [findById] at h4
    simp [getFeedback, h1, h2, h3, h4]
  · intro h1 h2 h3 h4 h5
    simp only [findById] at h4
    simp [getFeedback, h1, h2, h3, h4, h5]
  · intro h1 h2 h3 h4 h5
    simp only [findById] at h4
    simp [getFeedback, h1, h2, h3, h4, h5]

/-- Witness for the amended claim C4 at a concrete store: the correct
passkey on a feedback-free record yields the sentinel, a wrong passkey
yields the 403 outcome. -/
theorem claim_C4_witness :
    getFeedback sampleStore zeroId "abc123" =
      .ok "No feedback provided yet." ∧
    getFeedback sampleStore zeroId "wrong" = .wrongPasskey := by
  constructor
  · exact (claim_C4 sampleStore zeroId "abc123" 0 sampleRec).2.2.2.2.1
      (by decide) (by decide) (by decide) (by decide) (by decide)
  · exact (claim_C4 sampleStore zeroId "wrong" 0 sampleRec).2.2.2.1
      (by decide) (by decide) (by decide) (by decide) (by decide)

/-- Claim C5: on the passkey-gated delete variant the handler fetches the
record first and deletes only on exact passkey match; for an existing
record a mismatched non-empty passkey answers 403 and leaves the store
unchanged, and a well-formed id naming no record answers 404 with the
store unchanged. -/
theorem claim_C5 (s1 s2 : Store) (id1 id2 pk1 pk2 : String)
    (o1 o2 : Nat) (r : FileRecord) :
    (¬ pk1 = "" → parseObjectId id1 = some o1 → findById s1 o1 = some r →
      ¬ r.passkey = pk1 →
      deleteFileGated s1 id1 pk1 = (.invalidPasskey, s1) ∧
      DeleteResp.code .invalidPasskey = 403) ∧
    (¬ pk2 = "" → parseObjectId id2 = some o2 → findById s2 o2 = none →
      deleteFileGated s2 id2 pk2 = (.notFound, s2) ∧
      DeleteResp.code .notFound = 404) := by
  constructor
  · intro h1 h2 h3 h4
    simp only [findById] at h3
    exact ⟨by simp [deleteFileGated, h1, h2, h3, h4], rfl⟩
  · intro h1 h2 h3
    simp only [findById] at h3
    exact ⟨by simp [deleteFileGated, h1, h2, h3], rfl⟩

/-- Witness for claim C5 at concrete stores: a wrong passkey on the
sample record answers 403 leaving the store as it was, and id zero on the
empty store answers 404. -/
theorem claim_C5_witness :
    deleteFileGated sampleStore zeroId "wrong" =
      (.invalidPasskey, sampleStore) ∧
    deleteFileGated emptyStore zeroId "abc123" = (.notFound, emptyStore) := by
  constructor
  · exact ((claim_C5 sampleStore emptyStore zeroId zeroId "wrong" "abc123"
      0 0 sampleRec).1 (by decide) (by decide) (by decide) (by decide)).1
  · exact ((claim_C5 sampleStore emptyStore zeroId zeroId "wrong" "abc123"
      0 0 sampleRec).2 (by decide) (by decide) (by decide)).1

/-- Claim C6: a submission whose declared content type is not
application/pdf is rejected by the multer file filter with the
only-PDF-files error before the handler runs, and no record is inserted:
the store after the call is the store before it. -/
theorem claim_C6 (s : Store) (now : Nat) (pk : String) (f : UploadFile)
    (h : ¬ f.mimetype = "application/pdf") :
    submitFormPipeline s now pk (some f) =
      (.filterRejected "Only PDF files allowed", s) := by
  simp [submitFormPipeline, h]

/-- Witness for claim C6: a PNG upload is rejected and the empty store
stays empty. -/
theorem claim_C6_witness :
    submitFormPipeline emptyStore 0 "abc123" (some samplePng) =
      (.filterRejected "Only PDF files allowed", emptyStore) :=
  claim_C6 emptyStore 0 "abc123" samplePng (by decide)

/-- Claim C7 fails on the code for a malformed path id: the claim demands
the 400 invalid-request answer, but the ObjectId constructor throws and
the catch answers 500. -/
theorem claim_C7_counterexample :
    parseObjectId "x" = none ∧
    getFileById emptyStore "x" = .serverError ∧
    FileResp.code .serverError = 500 ∧
    FileResp.code .serverError ≠ 400 := by
  decide

/-- Claim C7 amended: GET /file/:id answers 500 when the path id does not
parse as an ObjectId, 404 when it parses but no record matches, and
otherwise 200 with the stored data, the stored content type and an inline
content disposition. -/
theorem claim_C7 (s : Store) (idStr : String) (oid : Nat)
    (r : FileRecord) :
    (parseObjectId idStr = none → getFileById s idStr = .serverError) ∧
    (parseObjectId idStr = some oid → findById s oid = none →
      getFileById s idStr = .notFound) ∧
    (parseObjectId idStr = some oid → findById s oid = some r →
      getFileById s idStr = .ok r.contentType "inline" r.data) ∧
    FileResp.code .serverError = 500 ∧ FileResp.code .notFound = 404 := by
  refine ⟨?_, ?_, ?_, rfl, rfl⟩
  · intro h
    simp [getFileById, h]
  · intro h1 h2
    simp only [findById] at h2
    simp [getFileById, h1, h2]
  · intro h1 h2
    simp only [findById] at h2
    simp [getFileById, h1, h2]

/-- Witness for the amended claim C7: id zero is absent from the empty
store (404) and present in the sample store (200 with the PDF bytes). -/
theorem claim_C7_witness :
    getFileById emptyStore zeroId = .notFound ∧
    getFileById sampleStore zeroId =
      .ok "application/pdf" "inline" [37, 80, 68, 70] := by
  constructor
  · exact (claim_C7 emptyStore zeroId 0 sampleRec).2.1 (by decide) (by decide)
  · exact (claim_C7 sampleStore zeroId 0 sampleRec).2.2.1
      (by decide) (by decide)

/-- Witness for claim C1: uploading the sample PDF with passkey abc123
into the empty store succeeds with id 0 and the file round-trips. -/
theorem claim_C1_witness :
    ∃ s', submitFormPipeline emptyStore 0 "abc123" (some samplePdf) =
        (.handled (.ok 0), s') ∧
      SubmitResp.code (.ok 0) = 200 ∧
      getFileById s' zeroId =
        .ok "application/pdf" "inline" [37, 80, 68, 70] :=
  claim_C1 emptyStore 0 "abc123" samplePdf zeroId
    (by intro r hr; simp [emptyStore] at hr)
    (by decide)
    (by intro r hr; simp [emptyStore] at hr)
    (by decide) (by decide)

/-- Witness for claim C2: re-using passkey abc123 against the sample
store fails with the conflict response and the store is unchanged. -/
theorem claim_C2_witness :
    submitFormPipeline sampleStore 0 "abc123" none =
      (.handled .passkeyInUse, sampleStore) ∧
    SubmitResp.code .passkeyInUse = 400 :=
  claim_C2 sampleStore 0 "abc123" none sampleRec (by decide) (by decide)
    (by decide) (fun g hg => nomatch hg)

/-- Witness for the amended claim C3: changing the sample record to a
genuinely different status succeeds, as does attaching fresh feedback. -/
theorem claim_C3_witness :
    (updateStatus sampleStore zeroId "approved").1 = .ok ∧
    (submitFeedback sampleStore zeroId "Good work").1 = .ok := by
  constructor
  · exact (claim_C3 sampleStore zeroId "approved" "Good work" 0
      (by decide) (by decide) (by decide) (by decide)).2.1.mpr
      ⟨sampleRec, by decide, by decide⟩
  · exact (claim_C3 sampleStore zeroId "approved" "Good work" 0
      (by decide) (by decide) (by decide) (by decide)).2.2.2.mpr
      ⟨sampleRec, by decide, by decide⟩

/-- Claim C8 fails on the primary GET /get-files handler of server.js:
its response is unchanged when the category of a record changes, and
unchanged when the upload timestamp changes, so the projection carries
neither the category field nor the uploadedAt field the claim lists. -/
theorem claim_C8_counterexample :
    getFiles storeNoCat = getFiles storeWithCat ∧
    storeNoCat.records.map (fun r => jsOr r.category "Uncategorized") ≠
      storeWithCat.records.map (fun r => jsOr r.category "Uncategorized") ∧
    getFiles sampleStore = getFiles storeT42 ∧
    sampleStore.records.map (fun r => r.uploadedAt) ≠
      storeT42.records.map (fun r => r.uploadedAt) := by
  decide

/-- Claim C8 amended: GET /get-files of server.js projects every record
to exactly the id string, filename, status, passkey and feedback, while
the part_001 variant additionally reports the category (defaulting to
Uncategorized when absent or empty) and the upload timestamp under the
uploadDate key; in both variants the projection covers every record and
never depends on the payload bytes. -/
theorem claim_C8 (s : Store) (g : List Nat → List Nat) (i : Nat)
    (r : FileRecord) (hr : s.records[i]? = some r) :
    (getFiles s).length = s.records.length ∧
    (getFilesV1 s).length = s.records.length ∧
    (getFiles s)[i]? = some
      { idStr := oidToString r.oid, filename := r.filename,
        status := r.status, passkey := r.passkey,
        feedback := r.feedback } ∧
    (getFilesV1 s)[i]? = some
      { idStr := oidToString r.oid, filename := r.filename,
        status := r.status, passkey := r.passkey, feedback := r.feedback,
        category := jsOr r.category "Uncategorized",
        uploadDate := r.uploadedAt } ∧
    getFiles { s with records := s.records.map (setData g) } =
      getFiles s ∧
    getFilesV1 { s with records := s.records.map (setData g) } =
      getFilesV1 s := by
  refine ⟨by simp [getFiles], by simp [getFilesV1], ?_, ?_, ?_, ?_⟩
  · simp [getFiles, List.getElem?_map, hr]
  · simp [getFilesV1, List.getElem?_map, hr]
  · simp only [getFiles, List.map_map]
    rfl
  · simp only [getFilesV1, List.map_map]
    rfl

/-- Witness for the amended claim C8 at the sample store. -/
theorem claim_C8_witness :
    (getFiles sampleStore).length = sampleStore.records.length ∧
    (getFilesV1 sampleStore)[0]? = some
      { idStr := oidToString sampleRec.oid, filename := sampleRec.filename,
        status := sampleRec.status, passkey := sampleRec.passkey,
        feedback := sampleRec.feedback,
        category := jsOr sampleRec.category "Uncategorized",
        uploadDate := sampleRec.uploadedAt } ∧
    getFiles { sampleStore with
        records := sampleStore.records.map (setData (fun _ => [])) } =
      getFiles sampleStore := by
  have h := claim_C8 sampleStore (fun _ => []) 0 sampleRec (by decide)
  exact ⟨h.1, h.2.2.2.1, h.2.2.2.2.1⟩

theorem mem_pipeline_records {s : Store} {now : Nat} {pk : String}
    {file : Option UploadFile} {x : FileRecord}
    (hx : x ∈ (submitFormPipeline s now pk file).2.records) :
    x ∈ s.records ∨ x.contentType = "application/pdf" := by
  cases file with
  | none =>
    left
    by_cases h1 : pk = ""
    · simpa [submitFormPipeline, submitForm, h1] using hx
    · by_cases h2 : (s.records.find? (fun r => r.passkey == pk)).isSome
      · simpa [submitFormPipeline, submitForm, h1, h2] using hx
      · simpa [submitFormPipeline, submitForm, h1, h2] using hx
  | some f =>
    by_cases hm : f.mimetype = "application/pdf"
    · by_cases h1 : pk = ""
      · left; simpa [submitFormPipeline, submitForm, hm, h1] using hx
      · by_cases h2 : (s.records.find? (fun r => r.passkey == pk)).isSome
        · left
          simpa [submitFormPipeline, submitForm, hm, h1, h2] using hx
        · have hx' : x ∈ s.records ++
              [⟨s.nextId, f.originalname, f.mimetype, f.buffer, now,
                "under_processing", pk, none, none⟩] := by
            simpa [submitFormPipeline, submitForm, hm, h1, h2] using hx
          rcases List.mem_append.mp hx' with h | h
          · exact Or.inl h
          · right
            simp at h
            rw [h]
            exact hm
    · left; simpa [submitFormPipeline, hm] using hx

theorem mem_updateStatus_records {s : Store} {idStr st : String}
    {x : FileRecord} (hx : x ∈ (updateStatus s idStr st).2.records) :
    x ∈ s.records ∨ ∃ r ∈ s.records, x = { r with status := st } := by
  by_cases h1 : idStr = "" ∨ st = ""
  · left
    unfold updateStatus at hx
    rw [if_pos h1] at hx
    exact hx
  · unfold updateStatus at hx
    rw [if_neg h1] at hx
    cases hp : parseObjectId idStr with
    | none => rw [hp] at hx; left; exact hx
    | some oid =>
      rw [hp] at hx
      rcases hu : updateFirst (fun r => r.oid == oid)
          (fun r => { r with status := st }) s.records with ⟨recs, m, u⟩
      have hx' : x ∈ recs := by
        by_cases hz : u = 0 <;> simp [hu, hz] at hx <;> exact hx
      exact mem_updateFirst (x := x) (by rw [hu]; exact hx')

theorem mem_submitFeedback_records {s : Store} {idStr fb : String}
    {x : FileRecord} (hx : x ∈ (submitFeedback s idStr fb).2.records) :
    x ∈ s.records ∨ ∃ r ∈ s.records, x = { r with feedback := some fb } := by
  by_cases h1 : idStr = "" ∨ fb = ""
  · left
    unfold submitFeedback at hx
    rw [if_pos h1] at hx
    exact hx
  · unfold submitFeedback at hx
    rw [if_neg h1] at hx
    cases hp : parseObjectId idStr with
    | none => rw [hp] at hx; left; exact hx
    | some oid =>
      rw [hp] at hx
      rcases hu : updateFirst (fun r => r.oid == oid)
          (fun r => { r with feedback := some fb }) s.records
        with ⟨recs, m, u⟩
      have hx' : x ∈ recs := by
        by_cases hz : u = 0 <;> simp [hu, hz] at hx <;> exact hx
      exact mem_updateFirst (x := x) (by rw [hu]; exact hx')

theorem mem_deleteGated_records {s : Store} {idStr pk : String}
    {x : FileRecord} (hx : x ∈ (deleteFileGated s idStr pk).2.records) :
    x ∈ s.records := by
  by_cases h1 : pk = ""
  · simpa [deleteFileGated, h1] using hx
  · cases hp : parseObjectId idStr with
    | none => simpa [deleteFileGated, h1, hp] using hx
    | some oid =>
      cases hf : s.records.find? (fun r => r.oid == oid) with
      | none => simpa [deleteFileGated, h1, hp, hf] using hx
      | some f0 =>
        by_cases h2 : f0.passkey = pk
        · rcases hd : deleteFirst (fun r => r.oid == oid) s.records
            with ⟨recs, d⟩
          have hx' : x ∈ recs := by
            by_cases hz : d = 0 <;>
              simp [deleteFileGated, h1, hp, hf, h2, hd, hz] at hx <;>
              exact hx
          exact mem_deleteFirst (x := x) (by rw [hd]; exact hx')
        · simpa [deleteFileGated, h1, hp, hf, h2] using hx

theorem mem_deleteById_records {s : Store} {idStr : String}
    {x : FileRecord} (hx : x ∈ (deleteFileById s idStr).2.records) :
    x ∈ s.records := by
  cases hp : parseObjectId idStr with
  | none => simpa [deleteFileById, hp] using hx
  | some oid =>
    rcases hd : deleteFirst (fun r => r.oid == oid) s.records
      with ⟨recs, d⟩
    have hx' : x ∈ recs := by
      by_cases hz : d = 0 <;>
        simp [deleteFileById, hp, hd, hz] at hx <;> exact hx
    exact mem_deleteFirst (x := x) (by rw [hd]; exact hx')

/-- Claim C9: the PDF content-type invariant holds of the empty store and
is preserved by every operation of the surface: upload (which inserts
only files passed by the PDF filter), status update, feedback update and
the three delete handlers; no operation rewrites the contentType field. -/
theorem claim_C9 (s : Store) (now : Nat)
    (pk idStr st fb id2 pk2 id3 : String) (file : Option UploadFile)
    (hinv : PdfInv s) :
    PdfInv (submitFormPipeline s now pk file).2 ∧
    PdfInv (updateStatus s idStr st).2 ∧
    PdfInv (submitFeedback s idStr fb).2 ∧
    PdfInv (deleteFileGated s id2 pk2).2 ∧
    PdfInv (deleteFileById s id3).2 ∧
    PdfInv (deleteAllFiles s).2 ∧
    PdfInv emptyStore := by
  refine ⟨?_, ?_, ?_, ?_, ?_, ?_, ?_⟩
  · intro x hx
    rcases mem_pipeline_records hx with h | h
    · exact hinv x h
    · exact h
  · intro x hx
    rcases mem_updateStatus_records hx with h | ⟨r, hr, h2⟩
    · exact hinv x h
    · rw [h2]; exact hinv r hr
  · intro x hx
    rcases mem_submitFeedback_records hx with h | ⟨r, hr, h2⟩
    · exact hinv x h
    · rw [h2]; exact hinv r hr
  · intro x hx
    exact hinv x (mem_deleteGated_records hx)
  · intro x hx
    exact hinv x (mem_deleteById_records hx)
  · intro x hx
    by_cases h : s.records.length = 0 <;> simp [deleteAllFiles, h] at hx
  · intro x hx
    simp [emptyStore] at hx

/-- Witness for claim C9 at the sample store. -/
theorem claim_C9_witness :
    PdfInv (submitFormPipeline sampleStore 0 "xyz" (some samplePdf)).2 ∧
    PdfInv (updateStatus sampleStore zeroId "approved").2 ∧
    PdfInv (deleteFileGated sampleStore zeroId "abc123").2 := by
  have hinv : PdfInv sampleStore := by
    intro r hr
    simp [sampleStore] at hr
    rw [hr]
    rfl
  have h := claim_C9 sampleStore 0 "xyz" zeroId "approved" "fb" zeroId
    "abc123" zeroId (some samplePdf) hinv
  exact ⟨h.1, h.2.1, h.2.2.2.1⟩

/-- Claim C10: POST /get-feedback answers the sentinel string not only
for null feedback but for every falsy stored feedback value, the empty
string included; and POST /submit-feedback rejects a present-but-empty
feedback string with 400 leaving the store unchanged, so the empty string
cannot enter a record through that endpoint. -/
theorem claim_C10 :
    (∀ (s : Store) (fid pk : String) (oid : Nat) (r : FileRecord),
      ¬ fid = "" → ¬ pk = "" → parseObjectId fid = some oid →
      findById s oid = some r → r.passkey = pk →
      (r.feedback = none ∨ r.feedback = some "") →
      getFeedback s fid pk = .ok "No feedback provided yet.") ∧
    (∀ (s : Store) (idStr : String),
      submitFeedback s idStr "" = (.missingParams, s) ∧
      UpdateResp.code .missingParams = 400) := by
  constructor
  · intro s fid pk oid r h1 h2 h3 h4 h5 h6
    simp only [findById] at h4
    rcases h6 with h6 | h6 <;>
      simp [getFeedback, h1, h2, h3, h4, h5, jsOr, h6]
  · intro s idStr
    constructor
    · unfold submitFeedback
      rw [if_pos (Or.inr rfl)]
    · rfl

/-- Witness for claim C10: empty-string feedback is reported as the
sentinel, and submitting empty feedback is rejected with 400. -/
theorem claim_C10_witness :
    getFeedback storeEmptyFb zeroId "abc123" =
      .ok "No feedback provided yet." ∧
    submitFeedback sampleStore zeroId "" = (.missingParams, sampleStore) := by
  constructor
  · exact claim_C10.1 storeEmptyFb zeroId "abc123" 0 recEmptyFb
      (by decide) (by decide) (by decide) (by decide) (by decide)
      (Or.inr (by decide))
  · exact (claim_C10.2 sampleStore zeroId).1

end VC
